import Mathlib

/-!
Verification development for the dataframe-tester repository.

The repository ships a Makefile-based command interface, shell wrappers
around a REST API, and a React UI; the Spark-backed engine script is
invoked by these layers. Each definition below is a shallow embedding of
one source artifact (file and lines noted in its doc comment); a few
definitions model engine behaviour that is only documented, and their
doc comments say so explicitly.
-/

namespace DataframeTester

/-! ## Command interface (Makefile) -/

/-- The variable environment a make invocation sees. In make, a variable
that was never set expands to the empty string, so a missing parameter is
represented by the empty string. From src/Makefile and
src/unnamed/part_005. -/
structure MakeEnv where
  FILE1 : String
  FILE2 : String
  FILE : String
  KEY : String
deriving DecidableEq

/-- Outcome of running one make target: whether the usage error was
printed, the exit status of the recipe, whether the dataframe processor
script was invoked, and with which arguments. -/
structure MakeOutcome where
  usageError : Bool
  exitCode : Nat
  processorInvoked : Bool
  processorArgs : List String
deriving DecidableEq

/-- The compare target (src/Makefile lines 312-319, src/unnamed/part_005
lines 131-138): if FILE1 or FILE2 expands empty, print the usage error
and exit 1 before the line that runs dataframe_processor.py. -/
def makeCompare (env : MakeEnv) : MakeOutcome :=
  if env.FILE1 = "" || env.FILE2 = "" then
    { usageError := true, exitCode := 1, processorInvoked := false, processorArgs := [] }
  else
    { usageError := false, exitCode := 0, processorInvoked := true,
      processorArgs := ["compare", env.FILE1, env.FILE2] }

/-- The profile target (src/Makefile lines 321-328, src/unnamed/part_005
lines 140-147): if FILE expands empty, print the usage error and exit 1
before the processor line. -/
def makeProfile (env : MakeEnv) : MakeOutcome :=
  if env.FILE = "" then
    { usageError := true, exitCode := 1, processorInvoked := false, processorArgs := [] }
  else
    { usageError := false, exitCode := 0, processorInvoked := true,
      processorArgs := ["profile", env.FILE] }

/-- The merge target (src/Makefile lines 330-337, src/unnamed/part_005
lines 149-156): if FILE1, FILE2 or KEY expands empty, print the usage
error and exit 1 before the processor line. -/
def makeMerge (env : MakeEnv) : MakeOutcome :=
  if env.FILE1 = "" || env.FILE2 = "" || env.KEY = "" then
    { usageError := true, exitCode := 1, processorInvoked := false, processorArgs := [] }
  else
    { usageError := false, exitCode := 0, processorInvoked := true,
      processorArgs := ["merge", env.FILE1, env.FILE2, env.KEY] }

/-- The list target (src/Makefile lines 339-341, src/unnamed/part_005
lines 158-160): no parameter check at all, the processor is always
invoked with the single argument list. -/
def makeList (_env : MakeEnv) : MakeOutcome :=
  { usageError := false, exitCode := 0, processorInvoked := true,
    processorArgs := ["list"] }

/-- Modelled from the spec: the engine script dataframe_processor.py is
not among the repository sources; section 6 of the spec says the list
entry point returns the static catalog of operation names and their
parameter schemas, and the Jenkins parameter table (src/unnamed/part_000
lines 101-108) confirms list needs no files and no arguments. -/
def processorListCatalog : List (String × List String) :=
  [ ("compare", ["file1", "file2"]),
    ("merge", ["file1", "file2", "key"]),
    ("profile", ["file"]),
    ("aggregate", ["file", "group_columns", "agg_functions"]),
    ("detect_anomalies", ["file", "columns"]),
    ("data_quality", ["file"]),
    ("pivot", ["file", "index", "columns", "values"]),
    ("correlation", ["file", "columns"]),
    ("list", []) ]

/-- Modelled from the spec: running the list operation ignores all extra
arguments and returns the static catalog; it has no failure mode for
missing parameters. -/
def processorRunList (_args : List String) : Except String (List (String × List String)) :=
  Except.ok processorListCatalog

/-! ## Merge join types (UI select, shell wrapper, API docs) -/

/-- The four option values of the join-type select rendered for
merge_dataframes in src/ui/src/components/ProcessingForm.js lines
121-129. -/
def processingFormJoinTypeOptions : List String :=
  ["inner", "left", "right", "outer"]

/-- Join-type resolution of api_merge in src/sh/stack-control.sh line
339: the third positional argument, with inner substituted when the
argument is absent or empty. -/
def apiMergeJoinType (arg : Option String) : String :=
  match arg with
  | none => "inner"
  | some s => if s = "" then "inner" else s

/-- Modelled from the spec: the merge contract restricts join_type to
inner, left, right, outer (spec section 4.3; src/API_README.md lines
177-181 lists exactly these four with inner as the default); the engine
that validates the field is not among the repository sources. -/
def mergeJoinTypeValid (s : String) : Bool :=
  s = "inner" || s = "left" || s = "right" || s = "outer"

/-! ## Processing form (src/ui/src/components/ProcessingForm.js) -/

/-- One entry appended to the multipart form data: either an uploaded
file object or a plain string field value. -/
inductive FormEntry where
  | file (name : String)
  | value (v : String)
deriving DecidableEq

/-- The local state of ProcessingForm that governs submission: the
processing flag passed down from App and the list of checked file
names. -/
structure FormState where
  processing : Bool
  selectedFiles : List String
deriving DecidableEq

/-- The disabled condition of the submit button (ProcessingForm.js line
220): processing or an empty selected-files list. -/
def submitDisabled (s : FormState) : Bool :=
  s.processing || s.selectedFiles.length == 0

/-- handleSubmit (ProcessingForm.js lines 22-44): the form data starts
with function_name, then one files entry per selected file name that is
found among the uploaded files, then one entry per parameter whose value
is neither the empty string nor null nor undefined (null and undefined
are modelled as none). -/
def handleSubmit (selectedFunction : String) (uploadedFiles : List String)
    (selectedFiles : List String) (parameters : List (String × Option String)) :
    List (String × FormEntry) :=
  ("function_name", FormEntry.value selectedFunction) ::
    (selectedFiles.filterMap (fun n =>
      if n ∈ uploadedFiles then some ("files", FormEntry.file n) else none)) ++
    (parameters.filterMap (fun p =>
      match p.2 with
      | none => none
      | some v => if v = "" then none else some (p.1, FormEntry.value v)))

/-- Whether a form-data entry is an appended file object (as opposed to
a plain string field). -/
def isFileEntry (p : String × FormEntry) : Bool :=
  match p.2 with
  | FormEntry.file _ => true
  | FormEntry.value _ => false

/-! ## App request handling (src/ui/src/App.js) -/

/-- The slice of App state touched by handleProcessing. -/
structure AppState where
  processing : Bool
  results : Option String
  error : Option String
  sessionId : Option String
deriving DecidableEq

/-- Outcome of the POST to api/process: success carries the response
body and its session_id field; failure carries the optional
server-reported error message. -/
inductive RequestOutcome where
  | success (data : String) (session_id : String)
  | failure (serverError : Option String)
deriving DecidableEq

/-- handleProcessing (App.js lines 46-66): set processing, clear error
and results; on success store the response data and its session id; on
failure set the error to the server message or Processing failed; in
both cases finally clear the processing flag. -/
def handleProcessing (s : AppState) (o : RequestOutcome) : AppState :=
  let s1 : AppState := { s with processing := true, error := none, results := none }
  match o with
  | RequestOutcome.success d sid =>
      { s1 with results := some d, sessionId := some sid, processing := false }
  | RequestOutcome.failure e =>
      { s1 with error := some (e.getD "Processing failed"), processing := false }

/-! ## Engine data model

The Spark engine script (scripts/dataframe_processor.py, served through
the Flask API) is not among the repository sources; the following
definitions are modelled from the spec, sections 3, 4.2, 4.4, 4.6 and 8,
and from the report shapes documented in src/API_README.md. -/

/-- Modelled from the spec: a non-null cell value of an inferred column
type (section 3); null is represented by Option. -/
inductive CellValue where
  | int (n : Int)
  | num (q : ℚ)
  | str (s : String)
  | bool (b : Bool)
deriving DecidableEq

/-- Modelled from the spec: the closed set of inferred column types
(sections 3 and 4.1). -/
inductive DType where
  | integer
  | float
  | string
  | boolean
  | timestamp
deriving DecidableEq

/-- A row is the tuple of its cells in column order; a missing value is
none. -/
abbrev Row := List (Option CellValue)

/-- Modelled from the spec: a loaded dataset, an ordered schema of named
typed columns together with the ordered rows (section 3). -/
structure Dataset where
  schema : List (String × DType)
  rows : List Row
deriving DecidableEq

/-! ## Comparator (spec section 4.2) -/

/-- The report shape of compare as documented in src/API_README.md and
spec section 4.2. -/
structure ComparisonReport where
  rowsA : Nat
  rowsB : Nat
  schemaMatch : Bool
  onlyInA : List Row
  onlyInB : List Row
  diffSample : List Row
deriving DecidableEq

/-- Modelled from the spec: compare two datasets — schemas match when
the column names, order and types agree exactly; when they match the
row-level difference lists the rows of one side absent from the other by
full-row identity, with the reported sample capped at 100 rows; when
they do not match, row diffing is skipped (section 4.2). The engine
script is not among the repository sources. -/
def compare (a b : Dataset) : ComparisonReport :=
  if a.schema = b.schema then
    let oa := a.rows.filter (fun r => !(b.rows.contains r))
    let ob := b.rows.filter (fun r => !(a.rows.contains r))
    { rowsA := a.rows.length, rowsB := b.rows.length, schemaMatch := true,
      onlyInA := oa, onlyInB := ob, diffSample := (oa ++ ob).take 100 }
  else
    { rowsA := a.rows.length, rowsB := b.rows.length, schemaMatch := false,
      onlyInA := [], onlyInB := [], diffSample := [] }

/-! ## Profiler (spec sections 3, 4.4 and 8) -/

/-- Numeric view of a cell: integers and floats contribute to the
numeric statistics, other types do not. -/
def CellValue.toRat : CellValue → Option ℚ
  | CellValue.int n => some (n : ℚ)
  | CellValue.num q => some q
  | _ => none

/-- Modelled from the spec: the per-column record of the profile report —
null count, unique count of distinct non-null values, and for the
numeric values min, max, mean and sample variance; the reported standard
deviation is the square root of the variance field and is defined
exactly when the variance is (sections 3 and 4.4). -/
structure ColumnStat where
  name : String
  nullCount : Nat
  nonNullCount : Nat
  uniqueCount : Nat
  statMin : Option ℚ
  statMax : Option ℚ
  mean : Option ℚ
  variance : Option ℚ
deriving DecidableEq

/-- Modelled from the spec: profile one column (section 4.4) — count
nulls and non-nulls, count distinct non-null values, and over the
numeric values compute min, max, mean, and the sample variance with the
n-1 denominator when more than one numeric value is present, undefined
otherwise. -/
def profileColumn (name : String) (vals : List (Option CellValue)) : ColumnStat :=
  let nonNull := vals.filterMap id
  let xs := nonNull.filterMap CellValue.toRat
  let k := xs.length
  let mu : ℚ := xs.sum / (k : ℚ)
  { name := name,
    nullCount := vals.countP (fun v => v.isNone),
    nonNullCount := vals.countP (fun v => !v.isNone),
    uniqueCount := nonNull.dedup.length,
    statMin := xs.min?,
    statMax := xs.max?,
    mean := if k = 0 then none else some mu,
    variance :=
      if k ≤ 1 then none
      else some ((xs.map (fun x => (x - mu) ^ 2)).sum / ((k : ℚ) - 1)) }

/-- A dataset presented column-wise to the profiler: each column is its
name with the ordered cell values. -/
structure ColumnarDataset where
  columns : List (String × List (Option CellValue))
deriving DecidableEq

/-- Modelled from the spec: profile returns one ColumnStat per column in
schema order (section 4.4). -/
def profile (d : ColumnarDataset) : List ColumnStat :=
  d.columns.map (fun c => profileColumn c.1 c.2)

/-! ## Anomaly detector (spec section 4.6) -/

/-- Insert a rational into a sorted list, keeping it sorted. -/
def insertSorted (x : ℚ) : List ℚ → List ℚ
  | [] => [x]
  | y :: ys => if x ≤ y then x :: y :: ys else y :: insertSorted x ys

/-- Sort a list of rationals ascending by insertion sort. -/
def sortQ (xs : List ℚ) : List ℚ :=
  xs.foldr insertSorted []

/-- Median of an already sorted list: the middle element for odd length,
the average of the two middle elements for even length. -/
def medianSorted (xs : List ℚ) : ℚ :=
  let m := xs.length
  if m % 2 = 1 then xs.getD (m / 2) 0
  else (xs.getD (m / 2 - 1) 0 + xs.getD (m / 2) 0) / 2

/-- Modelled from the spec: the quartiles Q1 and Q3 of a column are the
medians of the lower and upper halves of the sorted values (the spec,
section 4.6, fixes only that Q1 and Q3 are computed per column; the
median-of-halves convention, with the overall median excluded from both
halves at odd length, reproduces both worked examples of spec section
8). -/
def quartiles (xs : List ℚ) : ℚ × ℚ :=
  let s := sortQ xs
  let m := s.length
  (medianSorted (s.take (m / 2)), medianSorted (s.drop ((m + 1) / 2)))

/-- Modelled from the spec: the IQR fence of a column, the interval from
Q1 - 1.5 IQR to Q3 + 1.5 IQR (section 4.6). -/
def anomalyBounds (xs : List ℚ) : ℚ × ℚ :=
  let q := quartiles xs
  let iqr := q.2 - q.1
  (q.1 - 3 / 2 * iqr, q.2 + 3 / 2 * iqr)

/-- One flagged anomaly: row index, column name and the offending
value. -/
structure Anomaly where
  rowIndex : Nat
  column : String
  value : ℚ
deriving DecidableEq

/-- Modelled from the spec: detect_anomalies over one numeric column —
columns with fewer than 4 non-null values are skipped; otherwise every
value outside the IQR fence computed from the non-null values of the
column is flagged with its row index and column name (section 4.6). -/
def detectColumnAnomalies (name : String) (vals : List (Option ℚ)) : List Anomaly :=
  let xs := vals.filterMap id
  if xs.length < 4 then []
  else
    let b := anomalyBounds xs
    vals.enum.filterMap (fun p =>
      match p.2 with
      | none => none
      | some v => if v < b.1 || v > b.2 then some ⟨p.1, name, v⟩ else none)

/-! ## Theorems -/

/-- C1: for the compare, profile and merge targets of the command
interface, a missing required parameter (empty FILE1/FILE2 for compare,
FILE for profile, FILE1/FILE2/KEY for merge) makes the target print the
usage error and abort with exit status 1 without ever invoking the
dataframe processor, so no partial computation is performed. -/
theorem makeTargets_missing_params_abort (env : MakeEnv) :
    (env.FILE1 = "" ∨ env.FILE2 = "" →
      makeCompare env =
        { usageError := true, exitCode := 1, processorInvoked := false, processorArgs := [] }) ∧
    (env.FILE = "" →
      makeProfile env =
        { usageError := true, exitCode := 1, processorInvoked := false, processorArgs := [] }) ∧
    (env.FILE1 = "" ∨ env.FILE2 = "" ∨ env.KEY = "" →
      makeMerge env =
        { usageError := true, exitCode := 1, processorInvoked := false, processorArgs := [] }) := by
  refine ⟨?_, ?_, ?_⟩
  · intro h
    rcases h with h | h <;> simp [makeCompare, h]
  · intro h
    simp [makeProfile, h]
  · intro h
    rcases h with h | h | h <;> simp [makeMerge, h]

/-- Witness for C1 at concrete environments with a missing parameter. -/
theorem makeTargets_missing_params_abort_witness :
    makeCompare { FILE1 := "", FILE2 := "data2.csv", FILE := "", KEY := "" } =
      { usageError := true, exitCode := 1, processorInvoked := false, processorArgs := [] } ∧
    makeProfile { FILE1 := "", FILE2 := "", FILE := "", KEY := "" } =
      { usageError := true, exitCode := 1, processorInvoked := false, processorArgs := [] } ∧
    makeMerge { FILE1 := "data1.csv", FILE2 := "data2.csv", FILE := "", KEY := "" } =
      { usageError := true, exitCode := 1, processorInvoked := false, processorArgs := [] } :=
  ⟨(makeTargets_missing_params_abort _).1 (Or.inl rfl),
   (makeTargets_missing_params_abort _).2.1 rfl,
   (makeTargets_missing_params_abort _).2.2 (Or.inr (Or.inr rfl))⟩

/-- C2: the join type of a merge is one of exactly the four values
inner, left, right, outer — the UI select renders exactly these four
options, the documented merge contract accepts exactly these four — and
when the caller omits the join type, inner is used as the default, as
the shell wrapper api_merge does for an absent or empty third
argument. -/
theorem merge_join_types (s : String) :
    processingFormJoinTypeOptions = ["inner", "left", "right", "outer"] ∧
    (mergeJoinTypeValid s = true ↔ s ∈ processingFormJoinTypeOptions) ∧
    apiMergeJoinType none = "inner" ∧
    apiMergeJoinType (some "") = "inner" := by
  refine ⟨rfl, ?_, rfl, rfl⟩
  simp [mergeJoinTypeValid, processingFormJoinTypeOptions, or_assoc]

/-- Witness for C2 at a concrete join type. -/
theorem merge_join_types_witness :
    mergeJoinTypeValid "left" = true ↔ "left" ∈ processingFormJoinTypeOptions :=
  (merge_join_types "left").2.1

/-- C3: the list operation needs no input files and no extra arguments —
the make target performs no parameter validation and always invokes the
processor with the single argument list, and the list entry point never
fails, returning the static catalog of operation names and their
parameter schemas whatever arguments accompany it. -/
theorem list_operation_no_validation (env : MakeEnv) (args : List String) :
    makeList env =
      { usageError := false, exitCode := 0, processorInvoked := true,
        processorArgs := ["list"] } ∧
    processorRunList args = Except.ok processorListCatalog :=
  ⟨rfl, rfl⟩

/-- Witness for C3 at a concrete environment and argument list. -/
theorem list_operation_no_validation_witness :
    makeList { FILE1 := "", FILE2 := "", FILE := "", KEY := "" } =
      { usageError := false, exitCode := 0, processorInvoked := true,
        processorArgs := ["list"] } ∧
    processorRunList ["stray"] = Except.ok processorListCatalog :=
  list_operation_no_validation _ _

/-- C8: the processing form submit action is disabled whenever the
selected-files list is empty or the processing flag is set; hence
whenever a submission can happen the selected-files list is non-empty
and no previous request is still in flight. -/
theorem submit_requires_files_and_idle (s : FormState)
    (h : submitDisabled s = false) :
    s.selectedFiles ≠ [] ∧ s.processing = false := by
  simp [submitDisabled] at h
  exact ⟨fun he => h.2 (by simp [he]), h.1⟩

/-- Witness for C8 at a concrete enabled form state. -/
theorem submit_requires_files_and_idle_witness :
    ({ processing := false, selectedFiles := ["data1.csv"] } : FormState).selectedFiles ≠ [] ∧
    ({ processing := false, selectedFiles := ["data1.csv"] } : FormState).processing = false :=
  submit_requires_files_and_idle _ (by decide)

/-- C9: when a processing request fails, the results end as null and the
session id keeps its previous value, the error becomes the
server-reported message or the fallback Processing failed, and the
processing flag is false once the request completes — as it also is on
success. -/
theorem handleProcessing_failure_behaviour (s : AppState) (e : Option String)
    (d sid : String) :
    (handleProcessing s (RequestOutcome.failure e)).results = none ∧
    (handleProcessing s (RequestOutcome.failure e)).sessionId = s.sessionId ∧
    (handleProcessing s (RequestOutcome.failure e)).error =
      some (e.getD "Processing failed") ∧
    (handleProcessing s (RequestOutcome.failure e)).processing = false ∧
    (handleProcessing s (RequestOutcome.success d sid)).processing = false :=
  ⟨rfl, rfl, rfl, rfl, rfl⟩

/-- Witness for C9 at a concrete state and outcomes. -/
theorem handleProcessing_failure_behaviour_witness :
    (handleProcessing
        { processing := false, results := some "old", error := none,
          sessionId := some "s1" }
        (RequestOutcome.failure none)).results = none ∧
    (handleProcessing
        { processing := false, results := some "old", error := none,
          sessionId := some "s1" }
        (RequestOutcome.failure none)).sessionId = some "s1" ∧
    (handleProcessing
        { processing := false, results := some "old", error := none,
          sessionId := some "s1" }
        (RequestOutcome.failure none)).error = some "Processing failed" ∧
    (handleProcessing
        { processing := false, results := some "old", error := none,
          sessionId := some "s1" }
        (RequestOutcome.failure none)).processing = false ∧
    (handleProcessing
        { processing := false, results := some "old", error := none,
          sessionId := some "s1" }
        (RequestOutcome.success "new" "s2")).processing = false :=
  handleProcessing_failure_behaviour _ _ _ _

/-- Filtering a list down to the elements it does not contain yields the
empty list. -/
theorem filter_not_contains_self {α : Type} [DecidableEq α] (l : List α) :
    l.filter (fun r => !(l.contains r)) = [] := by
  rw [List.filter_eq_nil_iff]
  intro a ha
  simp [ha]

/-- C4: comparing any dataset with itself reports that the schemas match
and zero row differences — both difference lists and the reported sample
are empty. -/
theorem compare_self_no_differences (a : Dataset) :
    (compare a a).schemaMatch = true ∧
    (compare a a).onlyInA = [] ∧
    (compare a a).onlyInB = [] ∧
    (compare a a).diffSample = [] := by
  simp [compare, filter_not_contains_self]

/-- Witness for C4 at a concrete one-column dataset. -/
theorem compare_self_no_differences_witness :
    (compare
        { schema := [("id", DType.integer)], rows := [[some (CellValue.int 1)]] }
        { schema := [("id", DType.integer)], rows := [[some (CellValue.int 1)]] }).schemaMatch
      = true ∧
    (compare
        { schema := [("id", DType.integer)], rows := [[some (CellValue.int 1)]] }
        { schema := [("id", DType.integer)], rows := [[some (CellValue.int 1)]] }).onlyInA
      = [] ∧
    (compare
        { schema := [("id", DType.integer)], rows := [[some (CellValue.int 1)]] }
        { schema := [("id", DType.integer)], rows := [[some (CellValue.int 1)]] }).onlyInB
      = [] ∧
    (compare
        { schema := [("id", DType.integer)], rows := [[some (CellValue.int 1)]] }
        { schema := [("id", DType.integer)], rows := [[some (CellValue.int 1)]] }).diffSample
      = [] :=
  compare_self_no_differences _

/-- Counting the null and the non-null cells of a column partitions its
length. -/
theorem countP_isNone_add_not_isNone {α : Type} (l : List (Option α)) :
    l.countP (fun v => v.isNone) + l.countP (fun v => !v.isNone) = l.length := by
  induction l with
  | nil => rfl
  | cons x xs ih =>
      cases x <;> simp_all <;> omega

/-- C5: profiling a dataset whose columns all have length n returns
exactly one column statistic per column, and for every reported
statistic the null count plus the non-null count equals n. -/
theorem profile_counts (d : ColumnarDataset) (n : Nat)
    (h : ∀ c ∈ d.columns, c.2.length = n) :
    (profile d).length = d.columns.length ∧
    ∀ s ∈ profile d, s.nullCount + s.nonNullCount = n := by
  refine ⟨List.length_map _ _, ?_⟩
  intro s hs
  simp only [profile, List.mem_map] at hs
  obtain ⟨c, hc, rfl⟩ := hs
  show c.2.countP (fun v => v.isNone) + c.2.countP (fun v => !v.isNone) = n
  rw [countP_isNone_add_not_isNone, h c hc]

/-- Witness for C5 at a concrete two-column, two-row dataset with one
null. -/
theorem profile_counts_witness :
    (profile
        { columns := [("id", [some (CellValue.int 1), some (CellValue.int 2)]),
                      ("name", [some (CellValue.str "a"), none])] }).length = 2 ∧
    ∀ s ∈ profile
        { columns := [("id", [some (CellValue.int 1), some (CellValue.int 2)]),
                      ("name", [some (CellValue.str "a"), none])] },
      s.nullCount + s.nonNullCount = 2 :=
  profile_counts _ 2 (by decide)

/-- Profiling the empty column yields zero counts and undefined numeric
statistics. -/
theorem profileColumn_nil (nm : String) :
    profileColumn nm [] =
      { name := nm, nullCount := 0, nonNullCount := 0, uniqueCount := 0,
        statMin := none, statMax := none, mean := none, variance := none } := rfl

/-- C7: profiling a zero-row dataset does not fail — every reported
statistic is zero or null — and the standard deviation (whose square is
the variance field) is undefined exactly for columns with at most one
numeric value: the sample n-1 formula is applied only when more than one
value is present. -/
theorem profile_empty_and_stddev (d : ColumnarDataset) (name : String)
    (vals : List (Option CellValue)) (hd : ∀ c ∈ d.columns, c.2 = []) :
    (∀ s ∈ profile d, s.nullCount = 0 ∧ s.nonNullCount = 0 ∧ s.uniqueCount = 0 ∧
      s.statMin = none ∧ s.statMax = none ∧ s.mean = none ∧ s.variance = none) ∧
    (((vals.filterMap id).filterMap CellValue.toRat).length ≤ 1 →
      (profileColumn name vals).variance = none) ∧
    (1 < ((vals.filterMap id).filterMap CellValue.toRat).length →
      (profileColumn name vals).variance ≠ none) := by
  refine ⟨?_, ?_, ?_⟩
  · intro s hs
    simp only [profile, List.mem_map] at hs
    obtain ⟨c, hc, rfl⟩ := hs
    rw [hd c hc, profileColumn_nil]
    exact ⟨rfl, rfl, rfl, rfl, rfl, rfl, rfl⟩
  · intro h
    simp [profileColumn, h]
  · intro h
    have hn : ¬((vals.filterMap id).filterMap CellValue.toRat).length ≤ 1 := by omega
    simp [profileColumn, hn]

/-- Witness for C7 at concrete columns: an empty column, a one-value
column and a two-value column. -/
theorem profile_empty_and_stddev_witness :
    (profileColumn "id" []).variance = none ∧
    (profileColumn "value" [some (CellValue.int 5)]).variance = none ∧
    ¬(profileColumn "value"
        [some (CellValue.int 1), some (CellValue.int 3)]).variance = none :=
  ⟨((profile_empty_and_stddev { columns := [("id", [])] } "x" [] (by decide)).1
      (profileColumn "id" []) (by simp [profile])).2.2.2.2.2.2,
   (profile_empty_and_stddev { columns := [] } "value" [some (CellValue.int 5)]
      (by simp)).2.1 (by decide),
   (profile_empty_and_stddev { columns := [] } "value"
      [some (CellValue.int 1), some (CellValue.int 3)] (by simp)).2.2 (by decide)⟩

/-- C6: over a numeric column with at least 4 non-null values, an entry
is flagged by detect_anomalies exactly when it is the value at that row
index and lies outside the IQR fence of the column; in particular the
column 1,2,2,3,2,100 flags only the value 100 at row 5 and the column
1,2,2,3,2,4 flags nothing. -/
theorem detect_anomalies_iqr (name : String) (vals : List (Option ℚ)) (i : Nat)
    (v : ℚ) (h4 : 4 ≤ (vals.filterMap id).length) :
    (({ rowIndex := i, column := name, value := v } : Anomaly) ∈
        detectColumnAnomalies name vals ↔
      vals[i]? = some (some v) ∧
        (v < (anomalyBounds (vals.filterMap id)).1 ∨
          v > (anomalyBounds (vals.filterMap id)).2)) ∧
    detectColumnAnomalies "col" [some 1, some 2, some 2, some 3, some 2, some 100] =
      [{ rowIndex := 5, column := "col", value := 100 }] ∧
    detectColumnAnomalies "col" [some 1, some 2, some 2, some 3, some 2, some 4] =
      [] := by
  refine ⟨?_, ?_, ?_⟩
  case refine_2 =>
    norm_num [detectColumnAnomalies, anomalyBounds, quartiles, sortQ, insertSorted,
      medianSorted, List.enum, List.enumFrom, List.filterMap, List.getD]
  case refine_3 =>
    norm_num [detectColumnAnomalies, anomalyBounds, quartiles, sortQ, insertSorted,
      medianSorted, List.enum, List.enumFrom, List.filterMap, List.getD]
  simp only [detectColumnAnomalies]
  rw [if_neg (by omega)]
  constructor
  · intro hmem
    rw [List.mem_filterMap] at hmem
    obtain ⟨⟨j, x⟩, hj, hf⟩ := hmem
    cases x with
    | none => simp at hf
    | some w =>
        simp only at hf
        split at hf
        · rename_i hc
          rw [Option.some_inj, Anomaly.mk.injEq] at hf
          obtain ⟨rfl, -, rfl⟩ := hf
          refine ⟨List.mem_enum_iff_getElem?.mp hj, ?_⟩
          simpa using hc
        · exact absurd hf (by simp)
  · rintro ⟨hget, hout⟩
    rw [List.mem_filterMap]
    refine ⟨(i, some v), List.mem_enum_iff_getElem?.mpr hget, ?_⟩
    simp only
    rw [if_pos (by simpa using hout)]

/-- Witness for C6 at a concrete column, flagging the value 100 at row
5. -/
theorem detect_anomalies_iqr_witness :
    ({ rowIndex := 5, column := "col", value := 100 } : Anomaly) ∈
        detectColumnAnomalies "col"
          [some 1, some 2, some 2, some 3, some 2, some 100] ↔
      ([some 1, some 2, some 2, some 3, some 2, some 100] : List (Option ℚ))[5]? =
          some (some 100) ∧
        ((100 : ℚ) <
            (anomalyBounds
              (([some 1, some 2, some 2, some 3, some 2, some 100] :
                List (Option ℚ)).filterMap id)).1 ∨
          (100 : ℚ) >
            (anomalyBounds
              (([some 1, some 2, some 2, some 3, some 2, some 100] :
                List (Option ℚ)).filterMap id)).2) :=
  (detect_anomalies_iqr "col" [some 1, some 2, some 2, some 3, some 2, some 100]
    5 100 (by decide)).1

/-- The file part of the submitted form data has one entry per selected
file name found among the uploaded files. -/
theorem countP_fileEntries (uploaded selected : List String) :
    (selected.filterMap (fun n =>
        if n ∈ uploaded then some ("files", FormEntry.file n) else none)).countP
        isFileEntry =
      (selected.filter (fun n => n ∈ uploaded)).length := by
  induction selected with
  | nil => rfl
  | cons n rest ih =>
      by_cases hn : n ∈ uploaded <;>
        simp [hn, List.countP_cons, isFileEntry, ih]

/-- The parameter part of the submitted form data contains no file
entry. -/
theorem countP_paramEntries (params : List (String × Option String)) :
    (params.filterMap (fun p =>
        match p.2 with
        | none => none
        | some v =>
            if v = "" then none
            else some (p.1, FormEntry.value v))).countP isFileEntry = 0 := by
  induction params with
  | nil => rfl
  | cons p rest ih =>
      rcases p with ⟨pk, pv⟩
      cases pv with
      | none => simpa using ih
      | some w =>
          by_cases hw : w = "" <;>
            simp [hw, List.countP_cons, isFileEntry, ih]

/-- Counterexample to C10 as stated: with no uploaded files but one
selected file name, the submitted form data contains no file entry at
all, not one entry per selected file. -/
theorem handleSubmit_missing_upload_counterexample :
    (["a.csv"] : List String).length = 1 ∧
    (handleSubmit "merge_dataframes" [] ["a.csv"] []).countP isFileEntry = 0 := by
  decide

/-- C10 (amended): the submitted form data always contains the function
name; it contains exactly one file entry per selected file name that is
found among the uploaded files (a selected name with no matching
uploaded file contributes no entry); and it contains a string entry for
a user-settable parameter exactly when the user supplied a value that is
neither empty nor null nor undefined. -/
theorem handleSubmit_formdata (fn : String) (uploaded selected : List String)
    (params : List (String × Option String)) :
    ("function_name", FormEntry.value fn) ∈ handleSubmit fn uploaded selected params ∧
    (handleSubmit fn uploaded selected params).countP isFileEntry =
      (selected.filter (fun n => n ∈ uploaded)).length ∧
    (∀ k v, k ≠ "function_name" →
      ((k, FormEntry.value v) ∈ handleSubmit fn uploaded selected params ↔
        (k, some v) ∈ params ∧ v ≠ "")) := by
  refine ⟨List.mem_cons_self _ _, ?_, ?_⟩
  · have hfn : ¬isFileEntry ("function_name", FormEntry.value fn) = true := by
      simp [isFileEntry]
    rw [handleSubmit, List.countP_append, List.countP_cons_of_neg _ _ hfn,
      countP_fileEntries, countP_paramEntries, Nat.add_zero]
  · intro k v hk
    constructor
    · intro hmem
      rw [handleSubmit, List.mem_append, List.mem_cons] at hmem
      rcases hmem with (h | hB) | hC
      · exact absurd (show k = "function_name" from congrArg Prod.fst h) hk
      · rw [List.mem_filterMap] at hB
        obtain ⟨n, hn, hf⟩ := hB
        by_cases hu : n ∈ uploaded <;> simp [hu] at hf
      · rw [List.mem_filterMap] at hC
        obtain ⟨⟨pk, pv⟩, hp, hg⟩ := hC
        cases pv with
        | none => simp at hg
        | some w =>
            simp only at hg
            by_cases hw : w = ""
            · simp [hw] at hg
            · rw [if_neg hw, Option.some_inj, Prod.mk.injEq] at hg
              obtain ⟨rfl, hv⟩ := hg
              cases hv
              exact ⟨hp, hw⟩
    · rintro ⟨hp, hv⟩
      rw [handleSubmit, List.mem_append]
      refine Or.inr ?_
      rw [List.mem_filterMap]
      exact ⟨(k, some v), hp, by simp [hv]⟩

/-- Witness for C10 (amended) at concrete inputs: a merge submission
with one matching selected file and a join_type parameter. -/
theorem handleSubmit_formdata_witness :
    ("join_type", FormEntry.value "left") ∈
      handleSubmit "merge_dataframes" ["a.csv"] ["a.csv"]
        [("join_type", some "left"), ("join_keys", some "")] :=
  ((handleSubmit_formdata "merge_dataframes" ["a.csv"] ["a.csv"]
      [("join_type", some "left"), ("join_keys", some "")]).2.2
    "join_type" "left" (by decide)).mpr ⟨by decide, by decide⟩

end DataframeTester
